import Mathlib

/-!
Shallow embedding of the PCB Thermal Toolkit calculators.

The source is a single React component file containing three pure
calculation blocks (`useMemo` bodies) plus a handful of unit helpers and
material constants.  Each block reads a record of numeric inputs and
produces a record of derived quantities.  JavaScript numbers are idealised
as real numbers here; the JavaScript truthiness floor `(x || 1e-18)` is
modelled on real values by `orFloor` (falsy reals are exactly `0`), and a
separate `Option ℝ` model (`none` = NaN) captures the NaN-falsy behaviour
of `||`.
-/

namespace PcbThermalToolkit

/-- `const mmToMil = (mm) => mm / 0.0254;` -/
noncomputable def mmToMil (mm : ℝ) : ℝ := mm / 0.0254

/-- `const milToMm = (mil) => mil * 0.0254;` -/
noncomputable def milToMm (mil : ℝ) : ℝ := mil * 0.0254

/-- `const ozToMm = (oz) => oz * 0.0348;` (1 oz/ft² ≈ 34.8 µm) -/
noncomputable def ozToMm (oz : ℝ) : ℝ := oz * 0.0348

/-- Modelled from the spec: the inverse of `ozToMm` for the oz→mm→oz
round-trip property.  The source defines no mm→oz helper, so the inverse
is taken literally: division by the same 0.0348 mm/oz factor. -/
noncomputable def mmToOz (mm : ℝ) : ℝ := mm / 0.0348

/-- `const IPC_B = 0.44;` -/
noncomputable def IPC_B : ℝ := 0.44

/-- `const IPC_C = 0.725;` -/
noncomputable def IPC_C : ℝ := 0.725

/-- `const K_EXT = 0.048;` (external layers) -/
noncomputable def K_EXT : ℝ := 0.048

/-- `const K_INT = 0.024;` (internal layers) -/
noncomputable def K_INT : ℝ := 0.024

/-- `const RHO_CU_20C = 1.68e-8;` Ω·m -/
noncomputable def RHO_CU_20C : ℝ := 1.68e-8

/-- `const ALPHA_CU = 0.0039;` 1/°C -/
noncomputable def ALPHA_CU : ℝ := 0.0039

/-- `const K_CU = 385;` W/m·K -/
noncomputable def K_CU : ℝ := 385

/-- The JavaScript expression `(x || 1e-18)` on a real-valued (non-NaN)
number: the only falsy real values are `0` (and `-0`, which is `0` in ℝ). -/
noncomputable def orFloor (x : ℝ) : ℝ := if x = 0 then 1e-18 else x

namespace Ipc2221Calculator

/-- The six `useState` fields of `Ipc2221Calculator`: current (A),
allowable ΔT (°C), layer (the select offers `"external"` and
`"internal"`), copper thickness (oz/ft²), trace length (mm), ambient
(°C). -/
structure Input where
  current : ℝ
  tempRise : ℝ
  layer : String
  thicknessOz : ℝ
  length : ℝ
  ambient : ℝ

/-- The record returned by the `useMemo` body of `Ipc2221Calculator`. -/
structure Result where
  width_mm : ℝ
  width_mil : ℝ
  area_mils2 : ℝ
  R20 : ℝ
  R_T : ℝ
  P20 : ℝ
  P_T : ℝ
  J : ℝ

/-- `const k = layer === "external" ? K_EXT : K_INT;` -/
noncomputable def k (i : Input) : ℝ := if i.layer = "external" then K_EXT else K_INT

/-- `const area_mils2 = Math.pow(current / (k * Math.pow(tempRise, IPC_B)), 1 / IPC_C);` -/
noncomputable def area_mils2 (i : Input) : ℝ :=
  (i.current / (k i * i.tempRise ^ IPC_B)) ^ (1 / IPC_C)

/-- `const t_mm = ozToMm(thicknessOz);` -/
noncomputable def t_mm (i : Input) : ℝ := ozToMm i.thicknessOz

/-- `const width_mil = area_mils2 / (thicknessOz * 1.378);` -/
noncomputable def width_mil (i : Input) : ℝ := area_mils2 i / (i.thicknessOz * 1.378)

/-- `const width_mm = milToMm(width_mil);` -/
noncomputable def width_mm (i : Input) : ℝ := milToMm (width_mil i)

/-- `const crossSection_m2 = (t_mm / 1000) * (width_mm / 1000);` -/
noncomputable def crossSection_m2 (i : Input) : ℝ := (t_mm i / 1000) * (width_mm i / 1000)

/-- `const length_m = length / 1000;` -/
noncomputable def length_m (i : Input) : ℝ := i.length / 1000

/-- `const R20 = length_m * RHO_CU_20C / (crossSection_m2 || 1e-18);` -/
noncomputable def R20 (i : Input) : ℝ := length_m i * RHO_CU_20C / orFloor (crossSection_m2 i)

/-- `const topTemp = ambient + tempRise;` -/
noncomputable def topTemp (i : Input) : ℝ := i.ambient + i.tempRise

/-- `const R_T = R20 * (1 + ALPHA_CU * (topTemp - 20));` -/
noncomputable def R_T (i : Input) : ℝ := R20 i * (1 + ALPHA_CU * (topTemp i - 20))

/-- `const P20 = current * current * R20;` -/
noncomputable def P20 (i : Input) : ℝ := i.current * i.current * R20 i

/-- `const P_T = current * current * R_T;` -/
noncomputable def P_T (i : Input) : ℝ := i.current * i.current * R_T i

/-- `const J = current / (crossSection_m2 || 1e-18);` -/
noncomputable def J (i : Input) : ℝ := i.current / orFloor (crossSection_m2 i)

/-- The full `useMemo` body: the returned record
`{ width_mm, width_mil, area_mils2, R20, R_T, P20, P_T, J }`. -/
noncomputable def compute (i : Input) : Result :=
  ⟨width_mm i, width_mil i, area_mils2 i, R20 i, R_T i, P20 i, P_T i, J i⟩

end Ipc2221Calculator

namespace CopperTempCalculator

/-- The seven `useState` fields of `CopperTempCalculator`. -/
structure Input where
  rho20 : ℝ
  alpha : ℝ
  t1 : ℝ
  t2 : ℝ
  length : ℝ
  width : ℝ
  thickness : ℝ

/-- The record returned by the `useMemo` body of `CopperTempCalculator`. -/
structure Result where
  A : ℝ
  L : ℝ
  R1 : ℝ
  R2 : ℝ

/-- `const A = (width/1000) * (thickness/1000);` -/
noncomputable def A (i : Input) : ℝ := (i.width / 1000) * (i.thickness / 1000)

/-- `const L = length/1000;` -/
noncomputable def L (i : Input) : ℝ := i.length / 1000

/-- `const R1 = (rho20 * (1 + alpha * (t1 - 20))) * L / (A || 1e-18);` -/
noncomputable def R1 (i : Input) : ℝ :=
  (i.rho20 * (1 + i.alpha * (i.t1 - 20))) * L i / orFloor (A i)

/-- `const R2 = (rho20 * (1 + alpha * (t2 - 20))) * L / (A || 1e-18);` -/
noncomputable def R2 (i : Input) : ℝ :=
  (i.rho20 * (1 + i.alpha * (i.t2 - 20))) * L i / orFloor (A i)

/-- The full `useMemo` body: the returned record `{ A, L, R1, R2 }`. -/
noncomputable def compute (i : Input) : Result := ⟨A i, L i, R1 i, R2 i⟩

end CopperTempCalculator

namespace ThermalViaCalculator

/-- The five `useState` fields of `ThermalViaCalculator`: via count,
finished hole diameter (mm), plating thickness (mm), board thickness
(mm), copper thermal conductivity (W/m·K). -/
structure Input where
  n : ℝ
  hole : ℝ
  plate : ℝ
  boardT : ℝ
  kCu : ℝ

/-- The record returned by the `useMemo` body of `ThermalViaCalculator`. -/
structure Result where
  Do : ℝ
  Di : ℝ
  A_via_mm2 : ℝ
  A_total_m2 : ℝ
  Rth_cond : ℝ

/-- `const Do = hole + 2*plate;` -/
noncomputable def Do (i : Input) : ℝ := i.hole + 2 * i.plate

/-- `const Di = hole;` -/
noncomputable def Di (i : Input) : ℝ := i.hole

/-- `const A_via_mm2 = Math.PI/4 * (Do*Do - Di*Di);` -/
noncomputable def A_via_mm2 (i : Input) : ℝ :=
  Real.pi / 4 * (Do i * Do i - Di i * Di i)

/-- `const A_total_m2 = (A_via_mm2 * n) * 1e-6;` -/
noncomputable def A_total_m2 (i : Input) : ℝ := A_via_mm2 i * i.n * 1e-6

/-- `const L = boardT / 1000;` -/
noncomputable def L (i : Input) : ℝ := i.boardT / 1000

/-- `const Rth_cond = L / ((kCu) * (A_total_m2 || 1e-18));` -/
noncomputable def Rth_cond (i : Input) : ℝ :=
  L i / (i.kCu * orFloor (A_total_m2 i))

/-- The full `useMemo` body: the returned record
`{ Do, Di, A_via_mm2, A_total_m2, Rth_cond }`. -/
noncomputable def compute (i : Input) : Result :=
  ⟨Do i, Di i, A_via_mm2 i, A_total_m2 i, Rth_cond i⟩

end ThermalViaCalculator

/-!
A small model of JavaScript numbers with NaN, for the truthiness floor:
`none` stands for NaN, `some x` for a (finite) numeric value.  `jsOr`
models `a || b` (falsy values of the modelled domain: NaN, `0` and `-0`),
`jsDiv` models division whose result is a number exactly when both
operands are numbers and the denominator is nonzero.
-/

/-- JavaScript `a || b` restricted to this value domain: NaN and zero are
falsy, every other number is truthy. -/
noncomputable def jsOr : Option ℝ → Option ℝ → Option ℝ
  | none, b => b
  | some x, b => if x = 0 then b else some x

/-- Division on the NaN-model: NaN operands propagate, and a zero
denominator does not yield a numeric value. -/
noncomputable def jsDiv : Option ℝ → Option ℝ → Option ℝ
  | some a, some b => if b = 0 then none else some (a / b)
  | _, _ => none

/-- C1: the IPC-2221 calculator returns `area_mils2` equal to
`(current / (k · ΔT^0.44))^(1/0.725)` with `k = 0.048` for the external
layer choice and `0.024` otherwise (the select only offers internal as the
other option), the mil width equal to `area / (thicknessOz · 1.378)`, and
the mm width equal to the mil width times `0.0254`; in particular this
holds at current = 30 A, ΔT = 10 °C, external layer, 2 oz copper. -/
theorem ipc2221_area_width_spec (i : Ipc2221Calculator.Input) :
    (Ipc2221Calculator.compute i).area_mils2
      = (i.current / ((if i.layer = "external" then (0.048 : ℝ) else 0.024)
          * i.tempRise ^ (0.44 : ℝ))) ^ ((1 : ℝ) / 0.725)
    ∧ (Ipc2221Calculator.compute i).width_mil
      = (Ipc2221Calculator.compute i).area_mils2 / (i.thicknessOz * 1.378)
    ∧ (Ipc2221Calculator.compute i).width_mm
      = (Ipc2221Calculator.compute i).width_mil * 0.0254
    ∧ (Ipc2221Calculator.compute ⟨30, 10, "external", 2, 50, 25⟩).area_mils2
      = ((30 : ℝ) / (0.048 * (10 : ℝ) ^ (0.44 : ℝ))) ^ ((1 : ℝ) / 0.725)
    ∧ (Ipc2221Calculator.compute ⟨30, 10, "external", 2, 50, 25⟩).width_mil
      = (Ipc2221Calculator.compute ⟨30, 10, "external", 2, 50, 25⟩).area_mils2
          / (2 * 1.378) :=
  ⟨rfl, rfl, rfl, rfl, rfl⟩

/-- C2: the thermal-via calculator returns `Do = hole + 2·plate`, the
per-via annular copper area `π/4 · (Do² − Di²)` with `Di = hole`, the
total copper area `A_via · n` converted to m² by the factor `1e-6`, and —
whenever the total area is nonzero, so that the truthiness floor does not
fire — the vertical conductive resistance
`(boardT/1000) / (kCu · A_total)`. -/
theorem thermal_via_spec (i : ThermalViaCalculator.Input)
    (h : ThermalViaCalculator.A_total_m2 i ≠ 0) :
    (ThermalViaCalculator.compute i).Do = i.hole + 2 * i.plate
    ∧ (ThermalViaCalculator.compute i).A_via_mm2
      = Real.pi / 4 * ((i.hole + 2 * i.plate) ^ 2 - i.hole ^ 2)
    ∧ (ThermalViaCalculator.compute i).A_total_m2
      = (ThermalViaCalculator.compute i).A_via_mm2 * i.n * 1e-6
    ∧ (ThermalViaCalculator.compute i).Rth_cond
      = i.boardT / 1000 / (i.kCu * (ThermalViaCalculator.compute i).A_total_m2) := by
  refine ⟨rfl, ?_, rfl, ?_⟩
  · show ThermalViaCalculator.A_via_mm2 i = _
    unfold ThermalViaCalculator.A_via_mm2 ThermalViaCalculator.Do ThermalViaCalculator.Di
    ring
  · show ThermalViaCalculator.Rth_cond i = _
    unfold ThermalViaCalculator.Rth_cond ThermalViaCalculator.L orFloor
    rw [if_neg h]
    rfl

/-- Positivity of the total via copper area in concrete scenario 3
(n = 16, hole = 0.3 mm, plate = 0.025 mm). -/
lemma via_total_pos :
    0 < ThermalViaCalculator.A_total_m2 ⟨16, 0.3, 0.025, 1.6, 385⟩ := by
  have h1 : ThermalViaCalculator.A_via_mm2 ⟨16, 0.3, 0.025, 1.6, 385⟩
      = Real.pi / 4 * 0.0325 := by
    unfold ThermalViaCalculator.A_via_mm2 ThermalViaCalculator.Do ThermalViaCalculator.Di
    norm_num
  show 0 < ThermalViaCalculator.A_via_mm2 ⟨16, 0.3, 0.025, 1.6, 385⟩
      * (16 : ℝ) * 1e-6
  rw [h1]
  have hpi := Real.pi_pos
  positivity

/-- Witness for C2 at concrete scenario 3: n = 16, hole = 0.3 mm,
plate = 0.025 mm, boardT = 1.6 mm, k = 385 W/m·K. -/
theorem thermal_via_spec_witness :
    (ThermalViaCalculator.compute ⟨16, 0.3, 0.025, 1.6, 385⟩).Rth_cond
      = 1.6 / 1000
          / (385 * (ThermalViaCalculator.compute ⟨16, 0.3, 0.025, 1.6, 385⟩).A_total_m2)
    ∧ (ThermalViaCalculator.compute ⟨16, 0.3, 0.025, 1.6, 385⟩).Do = 0.35
    ∧ (ThermalViaCalculator.compute ⟨16, 0.3, 0.025, 1.6, 385⟩).A_via_mm2
      = Real.pi / 4 * ((0.35 : ℝ) ^ 2 - (0.3 : ℝ) ^ 2) := by
  obtain ⟨h1, h2, h3, h4⟩ := thermal_via_spec ⟨16, 0.3, 0.025, 1.6, 385⟩ (ne_of_gt via_total_pos)
  refine ⟨h4, h1.trans (by norm_num), h2.trans ?_⟩
  norm_num

/-- C3: the copper-resistance calculator returns the cross-section
`(width/1000) · (thickness/1000)` in m² and, whenever that area is
nonzero, the resistances `ρ20 · (1 + α · (T − 20)) · (length/1000) / A`
at each of the two temperatures. -/
theorem copper_temp_spec (i : CopperTempCalculator.Input)
    (h : CopperTempCalculator.A i ≠ 0) :
    (CopperTempCalculator.compute i).A = i.width / 1000 * (i.thickness / 1000)
    ∧ (CopperTempCalculator.compute i).R1
      = i.rho20 * (1 + i.alpha * (i.t1 - 20)) * (i.length / 1000)
          / (CopperTempCalculator.compute i).A
    ∧ (CopperTempCalculator.compute i).R2
      = i.rho20 * (1 + i.alpha * (i.t2 - 20)) * (i.length / 1000)
          / (CopperTempCalculator.compute i).A := by
  have hf : orFloor (CopperTempCalculator.A i) = CopperTempCalculator.A i := by
    unfold orFloor
    rw [if_neg h]
  refine ⟨rfl, ?_, ?_⟩
  · show CopperTempCalculator.R1 i = _
    unfold CopperTempCalculator.R1 CopperTempCalculator.L
    rw [hf]
    rfl
  · show CopperTempCalculator.R2 i = _
    unfold CopperTempCalculator.R2 CopperTempCalculator.L
    rw [hf]
    rfl

/-- Witness for C3 at concrete scenario 2: ρ20 = 1.68e-8 Ω·m, α = 0.0039,
T1 = 20 °C, T2 = 80 °C, length = 100 mm, width = 3 mm,
thickness = 0.070 mm. -/
theorem copper_temp_spec_witness :
    (CopperTempCalculator.compute ⟨1.68e-8, 0.0039, 20, 80, 100, 3, 0.070⟩).R1
      = 1.68e-8 * 0.1 / (3e-3 * 0.070e-3)
    ∧ (CopperTempCalculator.compute ⟨1.68e-8, 0.0039, 20, 80, 100, 3, 0.070⟩).R2
      = (CopperTempCalculator.compute ⟨1.68e-8, 0.0039, 20, 80, 100, 3, 0.070⟩).R1
          * (1 + 0.0039 * 60) := by
  have hA : CopperTempCalculator.A ⟨1.68e-8, 0.0039, 20, 80, 100, 3, 0.070⟩ ≠ 0 := by
    unfold CopperTempCalculator.A
    norm_num
  obtain ⟨h1, h2, h3⟩ := copper_temp_spec ⟨1.68e-8, 0.0039, 20, 80, 100, 3, 0.070⟩ hA
  constructor
  · rw [h2, h1]
    norm_num
  · rw [h3, h2, h1]
    norm_num

/-- C7: when the two entered temperatures coincide, the copper-resistance
calculator returns exactly equal resistances. -/
theorem equal_temps_equal_resistance (i : CopperTempCalculator.Input) (h : i.t1 = i.t2) :
    (CopperTempCalculator.compute i).R1 = (CopperTempCalculator.compute i).R2 := by
  show CopperTempCalculator.R1 i = CopperTempCalculator.R2 i
  unfold CopperTempCalculator.R1 CopperTempCalculator.R2
  rw [h]

/-- Witness for C7 at T1 = T2 = 55 °C. -/
theorem equal_temps_equal_resistance_witness :
    (CopperTempCalculator.compute ⟨1.68e-8, 0.0039, 55, 55, 100, 3, 0.070⟩).R1
      = (CopperTempCalculator.compute ⟨1.68e-8, 0.0039, 55, 55, 100, 3, 0.070⟩).R2 :=
  equal_temps_equal_resistance ⟨1.68e-8, 0.0039, 55, 55, 100, 3, 0.070⟩ rfl

/-- C8: each calculator is a pure function of its input record — two
calls on identical inputs return identical result records; no hidden
state enters the computation. -/
theorem compute_deterministic_spec :
    (∀ i j : Ipc2221Calculator.Input, i = j →
      Ipc2221Calculator.compute i = Ipc2221Calculator.compute j)
    ∧ (∀ i j : CopperTempCalculator.Input, i = j →
      CopperTempCalculator.compute i = CopperTempCalculator.compute j)
    ∧ (∀ i j : ThermalViaCalculator.Input, i = j →
      ThermalViaCalculator.compute i = ThermalViaCalculator.compute j) :=
  ⟨fun _ _ h => by rw [h], fun _ _ h => by rw [h], fun _ _ h => by rw [h]⟩

/-- Witness for C8: the three calculators at concrete repeated inputs. -/
theorem compute_deterministic_spec_witness :
    Ipc2221Calculator.compute ⟨30, 10, "external", 2, 50, 25⟩
      = Ipc2221Calculator.compute ⟨30, 10, "external", 2, 50, 25⟩
    ∧ CopperTempCalculator.compute ⟨1.68e-8, 0.0039, 20, 80, 100, 3, 0.070⟩
      = CopperTempCalculator.compute ⟨1.68e-8, 0.0039, 20, 80, 100, 3, 0.070⟩
    ∧ ThermalViaCalculator.compute ⟨16, 0.3, 0.025, 1.6, 385⟩
      = ThermalViaCalculator.compute ⟨16, 0.3, 0.025, 1.6, 385⟩ :=
  ⟨compute_deterministic_spec.1 _ _ rfl, compute_deterministic_spec.2.1 _ _ rfl,
    compute_deterministic_spec.2.2 _ _ rfl⟩

/-- C9: the mil→mm→mil round trip through the source's `milToMm` and
`mmToMil` helpers is the identity, and so is the oz→mm→oz round trip
through `ozToMm` and its (spec-modelled) inverse `mmToOz`; over the real
idealisation the round trips are exact, hence within any floating-point
tolerance. -/
theorem unit_roundtrip_spec (x : ℝ) :
    mmToMil (milToMm x) = x ∧ mmToOz (ozToMm x) = x := by
  constructor
  · show x * 0.0254 / 0.0254 = x
    rw [mul_div_assoc, div_self (by norm_num : (0.0254 : ℝ) ≠ 0), mul_one]
  · show x * 0.0348 / 0.0348 = x
    rw [mul_div_assoc, div_self (by norm_num : (0.0348 : ℝ) ≠ 0), mul_one]

/-- C4: the IPC-2221 calculator derives its cross-section from the oz→mm
thickness conversion and the derived width, and — whenever that area is
nonzero, so the truthiness floor does not fire — returns
`R20 = (length/1000) · 1.68e-8 / A`, the rise-temperature resistance
scaled by `1 + 0.0039 · ((ambient + ΔT) − 20)`, the `I²R` losses at both
temperatures, and the current density `I / A`. -/
theorem ipc2221_resistance_spec (i : Ipc2221Calculator.Input)
    (h : Ipc2221Calculator.crossSection_m2 i ≠ 0) :
    Ipc2221Calculator.crossSection_m2 i
      = ozToMm i.thicknessOz / 1000 * ((Ipc2221Calculator.compute i).width_mm / 1000)
    ∧ (Ipc2221Calculator.compute i).R20
      = i.length / 1000 * 1.68e-8 / Ipc2221Calculator.crossSection_m2 i
    ∧ (Ipc2221Calculator.compute i).R_T
      = (Ipc2221Calculator.compute i).R20 * (1 + 0.0039 * (i.ambient + i.tempRise - 20))
    ∧ (Ipc2221Calculator.compute i).P20
      = i.current * i.current * (Ipc2221Calculator.compute i).R20
    ∧ (Ipc2221Calculator.compute i).P_T
      = i.current * i.current * (Ipc2221Calculator.compute i).R_T
    ∧ (Ipc2221Calculator.compute i).J
      = i.current / Ipc2221Calculator.crossSection_m2 i := by
  have hf : orFloor (Ipc2221Calculator.crossSection_m2 i)
      = Ipc2221Calculator.crossSection_m2 i := by
    unfold orFloor
    rw [if_neg h]
  refine ⟨rfl, ?_, rfl, rfl, rfl, ?_⟩
  · show Ipc2221Calculator.R20 i = _
    unfold Ipc2221Calculator.R20 Ipc2221Calculator.length_m
    rw [hf]
    rfl
  · show Ipc2221Calculator.J i = _
    unfold Ipc2221Calculator.J
    rw [hf]

/-- Positivity of the curve-fit area in concrete scenario 1
(current = 30 A, ΔT = 10 °C, external layer, 2 oz copper). -/
lemma area_pos_scenario :
    0 < Ipc2221Calculator.area_mils2 ⟨30, 10, "external", 2, 50, 25⟩ := by
  show 0 < ((30 : ℝ) / (0.048 * (10 : ℝ) ^ (0.44 : ℝ))) ^ ((1 : ℝ) / 0.725)
  have h10 : (0 : ℝ) < (10 : ℝ) ^ (0.44 : ℝ) := Real.rpow_pos_of_pos (by norm_num) _
  positivity

/-- Positivity of the derived cross-section in concrete scenario 1. -/
lemma crossSection_pos_scenario :
    0 < Ipc2221Calculator.crossSection_m2 ⟨30, 10, "external", 2, 50, 25⟩ := by
  have hwil : 0 < Ipc2221Calculator.width_mil ⟨30, 10, "external", 2, 50, 25⟩ :=
    div_pos area_pos_scenario (by norm_num : (0 : ℝ) < 2 * 1.378)
  have hwmm : 0 < Ipc2221Calculator.width_mm ⟨30, 10, "external", 2, 50, 25⟩ :=
    mul_pos hwil (by norm_num : (0 : ℝ) < 0.0254)
  exact mul_pos (div_pos (by norm_num : (0 : ℝ) < 2 * 0.0348) (by norm_num))
    (div_pos hwmm (by norm_num))

/-- Witness for C4 at concrete scenario 1. -/
theorem ipc2221_resistance_spec_witness :
    (Ipc2221Calculator.compute ⟨30, 10, "external", 2, 50, 25⟩).R20
      = 50 / 1000 * 1.68e-8
          / Ipc2221Calculator.crossSection_m2 ⟨30, 10, "external", 2, 50, 25⟩
    ∧ (Ipc2221Calculator.compute ⟨30, 10, "external", 2, 50, 25⟩).P20
      = 30 * 30 * (Ipc2221Calculator.compute ⟨30, 10, "external", 2, 50, 25⟩).R20
    ∧ (Ipc2221Calculator.compute ⟨30, 10, "external", 2, 50, 25⟩).R_T
      = (Ipc2221Calculator.compute ⟨30, 10, "external", 2, 50, 25⟩).R20
          * (1 + 0.0039 * (25 + 10 - 20)) := by
  obtain ⟨h1, h2, h3, h4, h5, h6⟩ :=
    ipc2221_resistance_spec ⟨30, 10, "external", 2, 50, 25⟩
      (ne_of_gt crossSection_pos_scenario)
  exact ⟨h2, h4, h3⟩

/-- C5: in all three calculators, a zero denominator area is replaced by
the fixed floor `1e-18` m², so the resistance and thermal-resistance
outputs are the finite quotients by `1e-18` rather than a division
fault; a zero via count forces a zero total via area. -/
theorem zero_area_floor_spec :
    (∀ i : Ipc2221Calculator.Input, Ipc2221Calculator.crossSection_m2 i = 0 →
      (Ipc2221Calculator.compute i).R20 = i.length / 1000 * 1.68e-8 / 1e-18
      ∧ (Ipc2221Calculator.compute i).J = i.current / 1e-18)
    ∧ (∀ i : CopperTempCalculator.Input, CopperTempCalculator.A i = 0 →
      (CopperTempCalculator.compute i).R1
        = i.rho20 * (1 + i.alpha * (i.t1 - 20)) * (i.length / 1000) / 1e-18
      ∧ (CopperTempCalculator.compute i).R2
        = i.rho20 * (1 + i.alpha * (i.t2 - 20)) * (i.length / 1000) / 1e-18)
    ∧ (∀ i : ThermalViaCalculator.Input, ThermalViaCalculator.A_total_m2 i = 0 →
      (ThermalViaCalculator.compute i).Rth_cond = i.boardT / 1000 / (i.kCu * 1e-18))
    ∧ (∀ i : ThermalViaCalculator.Input, i.n = 0 →
      ThermalViaCalculator.A_total_m2 i = 0) := by
  refine ⟨fun i h => ⟨?_, ?_⟩, fun i h => ⟨?_, ?_⟩, fun i h => ?_, fun i h => ?_⟩
  · show Ipc2221Calculator.R20 i = _
    unfold Ipc2221Calculator.R20 Ipc2221Calculator.length_m orFloor
    rw [if_pos h]
    rfl
  · show Ipc2221Calculator.J i = _
    unfold Ipc2221Calculator.J orFloor
    rw [if_pos h]
  · show CopperTempCalculator.R1 i = _
    unfold CopperTempCalculator.R1 CopperTempCalculator.L orFloor
    rw [if_pos h]
  · show CopperTempCalculator.R2 i = _
    unfold CopperTempCalculator.R2 CopperTempCalculator.L orFloor
    rw [if_pos h]
  · show ThermalViaCalculator.Rth_cond i = _
    unfold ThermalViaCalculator.Rth_cond ThermalViaCalculator.L orFloor
    rw [if_pos h]
  · show ThermalViaCalculator.A_via_mm2 i * i.n * 1e-6 = 0
    rw [h, mul_zero, zero_mul]

/-- Witness for C5: a zero-current trace (zero derived cross-section), a
zero-width conductor, and a zero-count via array. -/
theorem zero_area_floor_spec_witness :
    (Ipc2221Calculator.compute ⟨0, 10, "external", 2, 50, 25⟩).R20
      = 50 / 1000 * 1.68e-8 / 1e-18
    ∧ (CopperTempCalculator.compute ⟨1.68e-8, 0.0039, 20, 80, 100, 0, 0.070⟩).R1
      = 1.68e-8 * (1 + 0.0039 * (20 - 20)) * (100 / 1000) / 1e-18
    ∧ (ThermalViaCalculator.compute ⟨0, 0.3, 0.025, 1.6, 385⟩).Rth_cond
      = 1.6 / 1000 / (385 * 1e-18)
    ∧ ThermalViaCalculator.A_total_m2 ⟨0, 0.3, 0.025, 1.6, 385⟩ = 0 := by
  have ha : Ipc2221Calculator.area_mils2 ⟨0, 10, "external", 2, 50, 25⟩ = 0 := by
    show ((0 : ℝ) / (0.048 * (10 : ℝ) ^ (0.44 : ℝ))) ^ ((1 : ℝ) / 0.725) = 0
    rw [zero_div]
    exact Real.zero_rpow (by norm_num)
  have hz : Ipc2221Calculator.crossSection_m2 ⟨0, 10, "external", 2, 50, 25⟩ = 0 := by
    show (2 : ℝ) * 0.0348 / 1000
        * (Ipc2221Calculator.area_mils2 ⟨0, 10, "external", 2, 50, 25⟩
            / ((2 : ℝ) * 1.378) * 0.0254 / 1000) = 0
    rw [ha]
    norm_num
  have hA : CopperTempCalculator.A ⟨1.68e-8, 0.0039, 20, 80, 100, 0, 0.070⟩ = 0 := by
    show (0 : ℝ) / 1000 * ((0.070 : ℝ) / 1000) = 0
    norm_num
  have hv : ThermalViaCalculator.A_total_m2 ⟨0, 0.3, 0.025, 1.6, 385⟩ = 0 :=
    zero_area_floor_spec.2.2.2 ⟨0, 0.3, 0.025, 1.6, 385⟩ rfl
  exact ⟨(zero_area_floor_spec.1 _ hz).1, (zero_area_floor_spec.2.1 _ hA).1,
    zero_area_floor_spec.2.2.1 _ hv, hv⟩

/-- C6: for strictly positive current, temperature rise, and copper
weight, the curve-fit area and both derived widths grow with the current
and shrink as the allowed temperature rise grows, all other inputs held
fixed. -/
theorem ipc2221_monotone_spec
    (c₁ c₂ r₁ r₂ w len amb : ℝ) (lk : String)
    (hc₁ : 0 < c₁) (hc : c₁ ≤ c₂) (hr₁ : 0 < r₁) (hr : r₁ ≤ r₂) (hw : 0 < w) :
    (Ipc2221Calculator.compute ⟨c₁, r₁, lk, w, len, amb⟩).area_mils2
      ≤ (Ipc2221Calculator.compute ⟨c₂, r₁, lk, w, len, amb⟩).area_mils2
    ∧ (Ipc2221Calculator.compute ⟨c₁, r₁, lk, w, len, amb⟩).width_mil
      ≤ (Ipc2221Calculator.compute ⟨c₂, r₁, lk, w, len, amb⟩).width_mil
    ∧ (Ipc2221Calculator.compute ⟨c₁, r₁, lk, w, len, amb⟩).width_mm
      ≤ (Ipc2221Calculator.compute ⟨c₂, r₁, lk, w, len, amb⟩).width_mm
    ∧ (Ipc2221Calculator.compute ⟨c₁, r₂, lk, w, len, amb⟩).area_mils2
      ≤ (Ipc2221Calculator.compute ⟨c₁, r₁, lk, w, len, amb⟩).area_mils2
    ∧ (Ipc2221Calculator.compute ⟨c₁, r₂, lk, w, len, amb⟩).width_mil
      ≤ (Ipc2221Calculator.compute ⟨c₁, r₁, lk, w, len, amb⟩).width_mil
    ∧ (Ipc2221Calculator.compute ⟨c₁, r₂, lk, w, len, amb⟩).width_mm
      ≤ (Ipc2221Calculator.compute ⟨c₁, r₁, lk, w, len, amb⟩).width_mm := by
  have hK : 0 < (if lk = "external" then K_EXT else K_INT) := by
    unfold K_EXT K_INT
    split <;> norm_num
  have hB : (0 : ℝ) ≤ IPC_B := by norm_num [IPC_B]
  have hCinv : (0 : ℝ) ≤ 1 / IPC_C := by norm_num [IPC_C]
  have hr₂ : 0 < r₂ := lt_of_lt_of_le hr₁ hr
  have hd₁ : 0 < (if lk = "external" then K_EXT else K_INT) * r₁ ^ IPC_B :=
    mul_pos hK (Real.rpow_pos_of_pos hr₁ _)
  have hdle : (if lk = "external" then K_EXT else K_INT) * r₁ ^ IPC_B
      ≤ (if lk = "external" then K_EXT else K_INT) * r₂ ^ IPC_B :=
    mul_le_mul_of_nonneg_left (Real.rpow_le_rpow hr₁.le hr hB) hK.le
  have hareaC : Ipc2221Calculator.area_mils2 ⟨c₁, r₁, lk, w, len, amb⟩
      ≤ Ipc2221Calculator.area_mils2 ⟨c₂, r₁, lk, w, len, amb⟩ :=
    Real.rpow_le_rpow (div_nonneg hc₁.le hd₁.le) ((div_le_div_iff_of_pos_right hd₁).mpr hc) hCinv
  have hareaR : Ipc2221Calculator.area_mils2 ⟨c₁, r₂, lk, w, len, amb⟩
      ≤ Ipc2221Calculator.area_mils2 ⟨c₁, r₁, lk, w, len, amb⟩ :=
    Real.rpow_le_rpow (div_nonneg hc₁.le (lt_of_lt_of_le hd₁ hdle).le)
      (div_le_div_of_nonneg_left hc₁.le hd₁ hdle) hCinv
  have hwt : (0 : ℝ) < w * 1.378 := mul_pos hw (by norm_num)
  have hwilC : Ipc2221Calculator.width_mil ⟨c₁, r₁, lk, w, len, amb⟩
      ≤ Ipc2221Calculator.width_mil ⟨c₂, r₁, lk, w, len, amb⟩ :=
    (div_le_div_iff_of_pos_right hwt).mpr hareaC
  have hwilR : Ipc2221Calculator.width_mil ⟨c₁, r₂, lk, w, len, amb⟩
      ≤ Ipc2221Calculator.width_mil ⟨c₁, r₁, lk, w, len, amb⟩ :=
    (div_le_div_iff_of_pos_right hwt).mpr hareaR
  exact ⟨hareaC, hwilC, mul_le_mul_of_nonneg_right hwilC (by norm_num),
    hareaR, hwilR, mul_le_mul_of_nonneg_right hwilR (by norm_num)⟩

/-- Witness for C6: currents 30 A ≤ 31 A and rises 10 °C ≤ 12 °C on an
external 2 oz trace. -/
theorem ipc2221_monotone_spec_witness :
    (Ipc2221Calculator.compute ⟨30, 10, "external", 2, 50, 25⟩).area_mils2
      ≤ (Ipc2221Calculator.compute ⟨31, 10, "external", 2, 50, 25⟩).area_mils2
    ∧ (Ipc2221Calculator.compute ⟨30, 12, "external", 2, 50, 25⟩).width_mm
      ≤ (Ipc2221Calculator.compute ⟨30, 10, "external", 2, 50, 25⟩).width_mm := by
  have h := ipc2221_monotone_spec 30 31 10 12 2 50 25 "external"
    (by norm_num) (by norm_num) (by norm_num) (by norm_num) (by norm_num)
  exact ⟨h.1, h.2.2.2.2.2⟩

/-- C10: the truthiness floor `(x || 1e-18)` fires on every falsy value of
the NaN-model — NaN and zero alike — so the denominator it produces is
never NaN and never zero, it equals `some (orFloor x)` (the real-valued
floor used by all three calculators) on numeric values, and a division by
it yields NaN only when its numerator is already NaN. -/
theorem nan_floor_spec :
    jsOr none (some 1e-18) = some 1e-18
    ∧ (∀ a : Option ℝ, jsOr a (some 1e-18) ≠ none ∧ jsOr a (some 1e-18) ≠ some 0)
    ∧ (∀ x : ℝ, jsOr (some x) (some 1e-18) = some (orFloor x))
    ∧ (∀ numr a : Option ℝ, numr ≠ none → jsDiv numr (jsOr a (some 1e-18)) ≠ none) := by
  have h2 : ∀ a : Option ℝ, ∃ z : ℝ, z ≠ 0 ∧ jsOr a (some 1e-18) = some z := by
    intro a
    cases a with
    | none => exact ⟨1e-18, by norm_num, rfl⟩
    | some x =>
        by_cases h : x = 0
        · exact ⟨1e-18, by norm_num, by simp [jsOr, h]⟩
        · exact ⟨x, h, by simp [jsOr, h]⟩
  refine ⟨rfl, fun a => ?_, fun x => ?_, fun numr a hn => ?_⟩
  · obtain ⟨z, hz, he⟩ := h2 a
    rw [he]
    exact ⟨by simp, by simp [hz]⟩
  · by_cases h : x = 0 <;> simp [jsOr, orFloor, h]
  · obtain ⟨z, hz, he⟩ := h2 a
    obtain ⟨y, rfl⟩ := Option.ne_none_iff_exists'.mp hn
    rw [he]
    simp [jsDiv, hz]

/-- Witness for C10: a NaN area floored to `1e-18`, a numeric division
through the floored denominator, and the agreement with `orFloor` at 0. -/
theorem nan_floor_spec_witness :
    jsDiv (some (1 : ℝ)) (jsOr none (some 1e-18)) ≠ none
    ∧ jsOr (some (0 : ℝ)) (some 1e-18) = some (orFloor 0) :=
  ⟨nan_floor_spec.2.2.2 (some 1) none (by simp), nan_floor_spec.2.2.1 0⟩

end PcbThermalToolkit
